import Mathlib

/-!
# Life Moves API — verification of the document-access layer and route handlers

Shallow embedding of `src/main.py` and `src/schemas.py`.  Python dictionaries
(the documents of the schemaless store) are modelled as association lists of
string keys and `Value`s; the store itself is a map from collection name to a
list of documents plus an identifier counter.  The `database` module
(`db`, `create_document`, `get_documents`) is not part of the source tree, so
its operations are modelled from the spec (§4.1); every definition carrying a
doc comment starting `Modelled from the spec:` comes from those spec words.
Everything else is translated from `src/main.py` / `src/schemas.py`.
-/

namespace LifeMoves

/-- A value as stored in a document.  `vId` is the store's native identifier
type (distinct from strings: the spec requires identifiers be
*string-normalized* before leaving the API).  Every list value the handlers
ever store is a list of strings (`tags`, `members`), hence `vStrList`.
`vEmptyMap` models the empty preference map `{}` that `User` carries by
default; no handler ever reads inside it. -/
inductive Value where
  | vNull
  | vBool (b : Bool)
  | vInt (n : Int)
  | vStr (s : String)
  | vId (n : Nat)
  | vStrList (elems : List String)
  | vEmptyMap
deriving DecidableEq, Repr

/-- A document: a Python dict with string keys, keys unique by construction
of every operation below (insertion order preserved, as in Python). -/
abbrev Doc := List (String × Value)

namespace Doc

/-- `d.get(k)` — `none` when the key is absent (Python returns `None`;
we keep `Option` to distinguish an absent key from a stored null). -/
def get (d : Doc) (k : String) : Option Value :=
  match d with
  | [] => none
  | (k', v) :: tl => if k' == k then some v else get tl k

/-- `d.get(k, default)`. -/
def getD (d : Doc) (k : String) (v : Value) : Value :=
  match Doc.get d k with
  | some w => w
  | none => v

/-- `d[k] = v` — overwrite in place when the key is present (keys are unique
in every document this development builds, so replacing the first occurrence
is dict assignment), or append (Python dicts keep insertion order, new keys
go last). -/
def set (d : Doc) (k : String) (v : Value) : Doc :=
  match d with
  | [] => [(k, v)]
  | (k', w) :: tl => if k' == k then (k, v) :: tl else (k', w) :: set tl k v

/-- `d.pop(k, None)`'s effect on the dict: remove the key if present. -/
def pop (d : Doc) (k : String) : Doc :=
  d.filter (fun p => p.1 != k)

end Doc

/-- Python truthiness of a stored value (`if t.get("_id")`). -/
def truthy : Value → Bool
  | .vNull => false
  | .vBool b => b
  | .vInt n => n != 0
  | .vStr s => s != ""
  | .vId _ => true
  | .vStrList l => !l.isEmpty
  | .vEmptyMap => false

/-- Rendering of a store-native identifier as a string (`str(ObjectId)`);
modelled as an injective tagging of the counter value. -/
def oidStr (n : Nat) : String := "oid" ++ toString n

/-- Python `str(v)` for the values the handlers stringify (only ever applied
to identifiers on the code paths we verify, but total). -/
def pyStr : Value → String
  | .vNull => "None"
  | .vBool b => if b then "True" else "False"
  | .vInt n => toString n
  | .vStr s => s
  | .vId n => oidStr n
  | .vStrList _ => "[...]"
  | .vEmptyMap => "{}"

/-- Substring test on character lists: the needle is a prefix of some
suffix. -/
def containsSub (needle : List Char) : List Char → Bool
  | [] => needle.isEmpty
  | c :: rest => needle.isPrefixOf (c :: rest) || containsSub needle rest

/-- Python's substring test `needle in hay`. -/
def strContains (hay needle : String) : Bool :=
  containsSub needle.toList hay.toList

/-- Python's `str.lower()`: lower-case every character. -/
def strLower (s : String) : String :=
  ⟨s.data.map Char.toLower⟩

/-- A single filter criterion: field equality, or membership
(`{"$in": [...]}` — used only for the squad-member query). -/
inductive Criterion where
  | eq (v : Value)
  | isIn (vs : List Value)
deriving DecidableEq, Repr

/-- A filter (`filt` in the source): a conjunction of per-field criteria. -/
abbrev Filt := List (String × Criterion)

/-- Modelled from the spec: the filter language of `getDocuments` (§4.1) —
"a conjunction of equality/membership criteria (field equals value, or
field's value is a member of a given set)".  For the membership criterion on
an array-valued field (the squad-member query) a document matches when one of
its array elements is among the given values. -/
def matchesCriterion (stored : Option Value) : Criterion → Bool
  | .eq v => stored == some v
  | .isIn vs =>
    match stored with
    | some (.vStrList elems) => elems.any (fun e => vs.contains (.vStr e))
    | some v => vs.contains v
    | none => false

def matchesFilt (f : Filt) (d : Doc) : Bool :=
  f.all (fun p => matchesCriterion (Doc.get d p.1) p.2)

/-- The backing store: named collections of documents (`db[name]`, empty when
never written) plus the counter from which identifiers are assigned (spec §3:
"every record, once created, is assigned exactly one immutable identifier by
the store; identifiers are never reused"). -/
structure DB where
  colls : String → List Doc
  nextId : Nat

namespace DB

def getColl (db : DB) (name : String) : List Doc :=
  db.colls name

def setColl (db : DB) (name : String) (docs : List Doc) : DB :=
  { db with colls := fun m => if m == name then docs else db.colls m }

def empty : DB := ⟨fun _ => [], 0⟩

end DB

/-- Modelled from the spec: `createDocument(collectionName, record) -> id`
of the missing `database` module (§4.1) — inserts one document into the named
collection, the store assigns the identifier, and the identifier is returned
"represented as a string regardless of the store's native identifier type". -/
def create_document (db : DB) (name : String) (record : Doc) : DB × String :=
  let newId := db.nextId
  let doc := Doc.set record "_id" (.vId newId)
  ({ DB.setColl db name (DB.getColl db name ++ [doc]) with nextId := newId + 1 },
   oidStr newId)

/-- Modelled from the spec: `getDocuments(collectionName, filter, limit)` of
the missing `database` module (§4.1) — "all matching records (or up to
`limit` of them, store-defined order)"; "each record retains its internal
identifier attached, to be stripped or renamed by the caller". -/
def get_documents (db : DB) (name : String) (filt : Filt) (limit : Option Nat) : List Doc :=
  let found := (DB.getColl db name).filter (matchesFilt filt)
  match limit with
  | none => found
  | some n => found.take n

/-- `find_one` of the store client: first matching document, if any. -/
def find_one (db : DB) (name : String) (filt : Filt) : Option Doc :=
  ((DB.getColl db name).filter (matchesFilt filt)).head?

/-- `update_one(filter, {"$set": fields})`: set the given fields on the first
matching document of the collection. -/
def update_one (db : DB) (name : String) (filt : Filt) (fields : List (String × Value)) : DB :=
  DB.setColl db name (updateFirst filt fields (DB.getColl db name))
where
  updateFirst (filt : Filt) (fields : List (String × Value)) : List Doc → List Doc
    | [] => []
    | d :: ds =>
      if matchesFilt filt d then
        (fields.foldl (fun acc p => Doc.set acc p.1 p.2) d) :: ds
      else
        d :: updateFirst filt fields ds

/-! ## Payload shapes (`src/schemas.py` and the request models of `src/main.py`)

Pydantic `Literal` enum fields are carried as strings (the HTTP layer rejects
other values before a handler runs; no claim depends on enum validation except
the feedback rating, which is modelled explicitly).  `datetime` fields are
carried as the already-rendered timestamp string supplied at request time. -/

def optStr : Option String → Value
  | some s => .vStr s
  | none => .vNull

def optInt : Option Int → Value
  | some n => .vInt n
  | none => .vNull

structure SignupRequest where
  name : String
  email : String
  password : String
deriving DecidableEq, Repr

structure LoginRequest where
  email : String
  password : String
deriving DecidableEq, Repr

structure IdResponse where
  id : String
deriving DecidableEq, Repr

structure ContentItem where
  title : String
  description : Option String := none
  category : String := "mindfulness"
  tags : List String := []
  tier : String := "free"
  duration_minutes : Option Int := none
  media_url : Option String := none
deriving DecidableEq, Repr

/-- The dict pydantic hands to `create_document` (all fields, declaration
order, `None` for absent optionals). -/
def ContentItem.toDoc (c : ContentItem) : Doc :=
  [("title", .vStr c.title), ("description", optStr c.description),
   ("category", .vStr c.category), ("tags", .vStrList c.tags),
   ("tier", .vStr c.tier), ("duration_minutes", optInt c.duration_minutes),
   ("media_url", optStr c.media_url)]

structure Task where
  user_id : String
  week : String
  task_type : String
  notes : Option String := none
  completed : Bool := true
deriving DecidableEq, Repr

def Task.toDoc (t : Task) : Doc :=
  [("user_id", .vStr t.user_id), ("week", .vStr t.week),
   ("task_type", .vStr t.task_type), ("notes", optStr t.notes),
   ("completed", .vBool t.completed)]

structure Checkin where
  user_id : String
  mood : String := "ok"
  note : Option String := none
  date : String
deriving DecidableEq, Repr

def Checkin.toDoc (c : Checkin) : Doc :=
  [("user_id", .vStr c.user_id), ("mood", .vStr c.mood),
   ("note", optStr c.note), ("date", .vStr c.date)]

structure Squad where
  name : String
  description : Option String := none
  owner_id : String
  members : List String := []
deriving DecidableEq, Repr

def Squad.toDoc (s : Squad) : Doc :=
  [("name", .vStr s.name), ("description", optStr s.description),
   ("owner_id", .vStr s.owner_id), ("members", .vStrList s.members)]

structure Post where
  user_id : String
  squad_id : Option String := none
  text : String
  created_at : String
deriving DecidableEq, Repr

def Post.toDoc (p : Post) : Doc :=
  [("user_id", .vStr p.user_id), ("squad_id", optStr p.squad_id),
   ("text", .vStr p.text), ("created_at", .vStr p.created_at)]

structure Program where
  title : String
  description : Option String := none
  weeks : Int := 4
  tier : String := "free"
deriving DecidableEq, Repr

def Program.toDoc (p : Program) : Doc :=
  [("title", .vStr p.title), ("description", optStr p.description),
   ("weeks", .vInt p.weeks), ("tier", .vStr p.tier)]

structure Enrollment where
  user_id : String
  program_id : String
  progress_week : Int := 0
deriving DecidableEq, Repr

def Enrollment.toDoc (e : Enrollment) : Doc :=
  [("user_id", .vStr e.user_id), ("program_id", .vStr e.program_id),
   ("progress_week", .vInt e.progress_week)]

/-- The raw feedback payload as received, before pydantic validation. -/
structure FeedbackPayload where
  user_id : Option String := none
  message : String
  rating : Option Int := none
deriving DecidableEq, Repr

def FeedbackPayload.toDoc (f : FeedbackPayload) : Doc :=
  [("user_id", optStr f.user_id), ("message", .vStr f.message),
   ("rating", optInt f.rating)]

/-- `schemas.py` line 64: `rating: Optional[int] = Field(None, ge=1, le=5)` —
the shape validation the HTTP layer applies before `submit_feedback` runs. -/
def validFeedback (f : FeedbackPayload) : Bool :=
  match f.rating with
  | none => true
  | some r => decide (1 ≤ r) && decide (r ≤ 5)

/-! ## Errors and handlers (`src/main.py`) -/

/-- How a request can fail: an `HTTPException` raised deliberately by a
handler (or by the validation layer), or an unhandled Python exception
escaping the handler. -/
inductive Err where
  | http (status : Nat) (detail : String)
  | pyError (msg : String)
deriving DecidableEq, Repr

instance {ε α : Type} [DecidableEq ε] [DecidableEq α] : DecidableEq (Except ε α)
  | .error a, .error b =>
    if h : a = b then .isTrue (by rw [h]) else .isFalse (by intro hh; cases hh; exact h rfl)
  | .error _, .ok _ => .isFalse (by intro hh; cases hh)
  | .ok _, .error _ => .isFalse (by intro hh; cases hh)
  | .ok a, .ok b =>
    if h : a = b then .isTrue (by rw [h]) else .isFalse (by intro hh; cases hh; exact h rfl)

/-- `f"sha1::{abs(hash(payload.password))}"` — the placeholder credential
derivation.  Python's `hash` is environment-dependent (`PYTHONHASHSEED`), so
the whole development is parameterized over it. -/
def credential (pyHash : String → Int) (password : String) : String :=
  "sha1::" ++ toString (pyHash password).natAbs

/-- `User(name=..., email=..., password_hash=...)` with the schema defaults
`plan="free"`, `preferences={}`, `streak=0`, as stored by signup. -/
def userDoc (name email password_hash : String) : Doc :=
  [("name", .vStr name), ("email", .vStr email),
   ("password_hash", .vStr password_hash), ("plan", .vStr "free"),
   ("preferences", .vEmptyMap), ("streak", .vInt 0)]

/-- `POST /auth/signup`.  The global `db` handle may be absent (spec §6: a
missing connection string degrades to an unavailable store rather than a
crash); `if not db` guards that case with a 500.  Returns the store state
after the request together with the result. -/
def signup (pyHash : String → Int) (gdb : Option DB) (payload : SignupRequest) :
    Option DB × Except Err IdResponse :=
  match gdb with
  | none => (none, .error (.http 500 "Database unavailable"))
  | some db =>
    match find_one db "user" [("email", .eq (.vStr payload.email))] with
    | some _ => (some db, .error (.http 400 "Email already registered"))
    | none =>
      let password_hash := credential pyHash payload.password
      let (db2, newId) :=
        create_document db "user" (userDoc payload.name payload.email password_hash)
      (some db2, .ok ⟨newId⟩)

/-- `POST /auth/login`.  Unlike `signup` there is no `if not db` guard:
`collection("user")` subscripts the absent handle and the `TypeError`
escapes unhandled. -/
def login (pyHash : String → Int) (gdb : Option DB) (payload : LoginRequest) :
    Option DB × Except Err (String × Doc) :=
  match gdb with
  | none => (none, .error (.pyError "TypeError: NoneType object is not subscriptable"))
  | some db =>
    match find_one db "user" [("email", .eq (.vStr payload.email))] with
    | none => (some db, .error (.http 404 "User not found"))
    | some u =>
      let expected := Doc.get u "password_hash"
      if expected != some (.vStr (credential pyHash payload.password)) then
        (some db, .error (.http 401 "Invalid credentials"))
      else
        let token := "tok_" ++ toString (pyHash (payload.email ++ payload.password)).natAbs
        match Doc.get u "_id" with
        | none => (some db, .error (.pyError "KeyError: _id"))
        | some uid =>
          let db2 := update_one db "user" [("_id", .eq uid)] [("session_token", .vStr token)]
          (some db2,
           .ok (token,
                [("id", .vStr (pyStr uid)), ("name", Doc.getD u "name" .vNull),
                 ("email", Doc.getD u "email" .vNull),
                 ("plan", Doc.getD u "plan" (.vStr "free"))]))

/-- Python truthiness of an optional query string (`if category:` — both
`None` and the empty string skip the branch). -/
def truthyOpt : Option String → Bool
  | none => false
  | some s => s != ""

/-- `filt[field] = value` behind an `if param:` guard. -/
def optFilt (field : String) (o : Option String) : Filt :=
  match o with
  | some s => if s != "" then [(field, .eq (.vStr s))] else []
  | none => []

/-- `v.lower()` — an `AttributeError` unless the value is a string. -/
def pyLower (v : Value) : Except Err String :=
  match v with
  | .vStr s => .ok (strLower s)
  | _ => .error (.pyError "AttributeError: lower")

/-- One item's test in the search comprehension of `list_content`:
`ql in i.get("title", "").lower() or ql in (i.get("description", "").lower())`
(Python `or` short-circuits: the description is only lowered when the title
does not match). -/
def contentMatchesQ (ql : String) (i : Doc) : Except Err Bool :=
  match pyLower (Doc.getD i "title" (.vStr "")) with
  | .error e => .error e
  | .ok tl =>
    if strContains tl ql then .ok true
    else
      match pyLower (Doc.getD i "description" (.vStr "")) with
      | .error e => .error e
      | .ok dl => .ok (strContains dl ql)

/-- The list comprehension: evaluated left to right, the first exception
aborts the request. -/
def filterExcept (p : Doc → Except Err Bool) : List Doc → Except Err (List Doc)
  | [] => .ok []
  | x :: xs =>
    match p x with
    | .error e => .error e
    | .ok b =>
      match filterExcept p xs with
      | .error e => .error e
      | .ok rest => .ok (if b then x :: rest else rest)

/-- `GET /library`. -/
def list_content (db : DB) (category q tier : Option String) : Except Err (List Doc) :=
  let filt := optFilt "category" category ++ optFilt "tier" tier
  let items := get_documents db "contentitem" filt none
  let searched :=
    match q with
    | none => Except.ok items
    | some qs =>
      if qs != "" then filterExcept (contentMatchesQ (strLower qs)) items else Except.ok items
  match searched with
  | .error e => .error e
  | .ok items2 => .ok (items2.map (fun i => Doc.pop i "_id"))

/-- `POST /library`. -/
def add_content (db : DB) (item : ContentItem) : DB × IdResponse :=
  let (db2, newId) := create_document db "contentitem" item.toDoc
  (db2, ⟨newId⟩)

/-- `POST /tasks`. -/
def submit_task (db : DB) (task : Task) : DB × IdResponse :=
  let (db2, newId) := create_document db "task" task.toDoc
  (db2, ⟨newId⟩)

/-- `t["id"] = str(t.pop("_id")) if t.get("_id") else None` — the per-record
identifier normalization every id-renaming list handler applies.  (When the
`_id` value is falsy the `pop` is never evaluated.) -/
def normalizeId (d : Doc) : Doc :=
  match Doc.get d "_id" with
  | some v =>
    if truthy v then Doc.set (Doc.pop d "_id") "id" (.vStr (pyStr v))
    else Doc.set d "id" .vNull
  | none => Doc.set d "id" .vNull

/-- `GET /tasks` (`user_id` is a required query parameter). -/
def list_tasks (db : DB) (user_id : String) (week : Option String) : List Doc :=
  let filt := [("user_id", Criterion.eq (.vStr user_id))] ++ optFilt "week" week
  (get_documents db "task" filt none).map normalizeId

/-- `POST /checkins`. -/
def create_checkin (db : DB) (checkin : Checkin) : DB × IdResponse :=
  let (db2, newId) := create_document db "checkin" checkin.toDoc
  (db2, ⟨newId⟩)

/-- The declared default of the `limit` query parameter of `GET /checkins`:
a request that omits `limit` runs with this value. -/
def checkinsDefaultLimit : Nat := 30

/-- `GET /checkins`. -/
def list_checkins (db : DB) (user_id : String) (limit : Nat) : List Doc :=
  let docs := get_documents db "checkin" [("user_id", .eq (.vStr user_id))] (some limit)
  docs.map normalizeId

/-- `POST /squads` — re-binds `squad` with the owner appended to `members`
when absent, then stores it. -/
def create_squad (db : DB) (squad : Squad) : DB × IdResponse :=
  let squad :=
    if squad.members.contains squad.owner_id then squad
    else { squad with members := squad.members ++ [squad.owner_id] }
  let (db2, newId) := create_document db "squad" squad.toDoc
  (db2, ⟨newId⟩)

/-- `GET /squads`. -/
def list_squads (db : DB) (member_id : Option String) : List Doc :=
  let filt : Filt :=
    match member_id with
    | some m => if m != "" then [("members", .isIn [.vStr m])] else []
    | none => []
  (get_documents db "squad" filt none).map normalizeId

/-- `POST /posts`. -/
def create_post (db : DB) (post : Post) : DB × IdResponse :=
  let (db2, newId) := create_document db "post" post.toDoc
  (db2, ⟨newId⟩)

/-- The declared default of the `limit` query parameter of `GET /posts`. -/
def postsDefaultLimit : Nat := 50

/-- `GET /posts`. -/
def list_posts (db : DB) (squad_id user_id : Option String) (limit : Nat) : List Doc :=
  let filt := optFilt "squad_id" squad_id ++ optFilt "user_id" user_id
  (get_documents db "post" filt (some limit)).map normalizeId

/-- `POST /programs`. -/
def create_program (db : DB) (program : Program) : DB × IdResponse :=
  let (db2, newId) := create_document db "program" program.toDoc
  (db2, ⟨newId⟩)

/-- `GET /programs`. -/
def list_programs (db : DB) (tier : Option String) : List Doc :=
  let filt := optFilt "tier" tier
  (get_documents db "program" filt none).map (fun d => Doc.pop d "_id")

/-- `POST /enroll`. -/
def enroll_user (db : DB) (enrollment : Enrollment) : DB × IdResponse :=
  let (db2, newId) := create_document db "enrollment" enrollment.toDoc
  (db2, ⟨newId⟩)

/-- `GET /enrollments`. -/
def list_enrollments (db : DB) (user_id : String) : List Doc :=
  (get_documents db "enrollment" [("user_id", .eq (.vStr user_id))] none).map normalizeId

/-- `POST /feedback` as observed by an HTTP caller: the pydantic shape check
(`validFeedback`) runs before the handler body; a failing payload is rejected
with a 422 and the handler (hence the store write) never runs. -/
def submit_feedback (db : DB) (feedback : FeedbackPayload) : DB × Except Err IdResponse :=
  if validFeedback feedback then
    let (db2, newId) := create_document db "feedback" feedback.toDoc
    (db2, .ok ⟨newId⟩)
  else
    (db, .error (.http 422 "validation error: rating"))


/-! ## Dictionary and store lemmas -/

theorem Doc.get_set_self (d : Doc) (k : String) (v : Value) :
    Doc.get (Doc.set d k v) k = some v := by
  induction d with
  | nil => simp [Doc.set, Doc.get]
  | cons p tl ih =>
    obtain ⟨k0, w⟩ := p
    by_cases h0 : k0 = k
    · simp [Doc.set, Doc.get, h0]
    · simpa [Doc.set, Doc.get, h0] using ih

theorem Doc.get_set_ne (d : Doc) (k k' : String) (v : Value) (h : k' ≠ k) :
    Doc.get (Doc.set d k v) k' = Doc.get d k' := by
  have hk : ¬ (k = k') := fun hh => h hh.symm
  induction d with
  | nil => simp [Doc.set, Doc.get, hk]
  | cons p tl ih =>
    obtain ⟨k0, w⟩ := p
    by_cases h0 : k0 = k
    · subst h0
      simp [Doc.set, Doc.get, hk]
    · by_cases h1 : k0 = k'
      · simp [Doc.set, Doc.get, h0, h1, h]
      · simpa [Doc.set, Doc.get, h0, h1] using ih

theorem Doc.get_pop_self (d : Doc) (k : String) :
    Doc.get (Doc.pop d k) k = none := by
  induction d with
  | nil => simp [Doc.pop, Doc.get]
  | cons p tl ih =>
    obtain ⟨k0, w⟩ := p
    by_cases h0 : k0 = k
    · simpa [Doc.pop, Doc.get, h0] using ih
    · simpa [Doc.pop, Doc.get, h0] using ih

theorem Doc.get_pop_ne (d : Doc) (k k' : String) (h : k' ≠ k) :
    Doc.get (Doc.pop d k) k' = Doc.get d k' := by
  induction d with
  | nil => simp [Doc.pop]
  | cons p tl ih =>
    obtain ⟨k0, w⟩ := p
    by_cases h0 : k0 = k
    · subst h0
      have hk : ¬ (k0 = k') := fun hh => h hh.symm
      simpa [Doc.pop, Doc.get, hk] using ih
    · by_cases h1 : k0 = k'
      · simp [Doc.pop, Doc.get, h0, h1, h]
      · simpa [Doc.pop, Doc.get, h0, h1] using ih

theorem getColl_create_self (db : DB) (name : String) (r : Doc) :
    DB.getColl (create_document db name r).1 name =
      DB.getColl db name ++ [Doc.set r "_id" (.vId db.nextId)] := by
  simp [create_document, DB.getColl, DB.setColl]

theorem get_documents_subset (db : DB) (name : String) (filt : Filt) (lim : Option Nat) :
    get_documents db name filt lim ⊆ DB.getColl db name := by
  intro d hd
  cases lim with
  | none =>
    rw [show get_documents db name filt none
        = (DB.getColl db name).filter (matchesFilt filt) from rfl] at hd
    exact List.filter_subset' _ hd
  | some n =>
    rw [show get_documents db name filt (some n)
        = ((DB.getColl db name).filter (matchesFilt filt)).take n from rfl] at hd
    exact List.filter_subset' _ (List.take_subset _ _ hd)

theorem find_one_eq_none_iff (db : DB) (name : String) (filt : Filt) :
    find_one db name filt = none ↔
      ∀ d ∈ DB.getColl db name, ¬ matchesFilt filt d := by
  simp [find_one, List.head?_eq_none_iff, List.filter_eq_nil_iff]

theorem find_one_isSome_of_mem (db : DB) (name : String) (filt : Filt) (d : Doc)
    (hd : d ∈ DB.getColl db name) (hm : matchesFilt filt d = true) :
    ∃ u, find_one db name filt = some u := by
  cases hf : find_one db name filt with
  | some u => exact ⟨u, rfl⟩
  | none =>
    rw [find_one_eq_none_iff] at hf
    exact absurd hm (hf d hd)

/-! ## Claim theorems -/

/-- C3: every squad record written by `POST /squads` has the owner id in its
member list, whether or not the caller included it; in particular the squad
`{name: "Morning Crew", owner_id: "u1", members: []}` is stored with member
list `["u1"]`. -/
theorem squad_owner_in_members (db db2 : DB) (squad : Squad) :
    (∃ d ms, DB.getColl (create_squad db squad).1 "squad" = DB.getColl db "squad" ++ [d]
        ∧ Doc.get d "members" = some (.vStrList ms) ∧ squad.owner_id ∈ ms)
    ∧ (∃ d, DB.getColl (create_squad db2 ⟨"Morning Crew", none, "u1", []⟩).1 "squad"
          = DB.getColl db2 "squad" ++ [d]
        ∧ Doc.get d "members" = some (.vStrList ["u1"])) := by
  constructor
  · by_cases h : squad.members.contains squad.owner_id
    · refine ⟨Doc.set squad.toDoc "_id" (.vId db.nextId), squad.members, ?_, ?_, ?_⟩
      · simp only [create_squad, h, if_true]
        exact getColl_create_self db "squad" _
      · simp [Squad.toDoc, Doc.set, Doc.get]
      · simpa using h
    · refine ⟨Doc.set (Squad.toDoc { squad with members := squad.members ++ [squad.owner_id] })
          "_id" (.vId db.nextId), squad.members ++ [squad.owner_id], ?_, ?_, ?_⟩
      · simp only [create_squad, h, if_false]
        exact getColl_create_self db "squad" _
      · simp [Squad.toDoc, Doc.set, Doc.get]
      · simp
  · refine ⟨Doc.set (Squad.toDoc ⟨"Morning Crew", none, "u1", ["u1"]⟩) "_id" (.vId db2.nextId),
      ?_, ?_⟩
    · simp only [create_squad]
      norm_num
      exact getColl_create_self db2 "squad" _
    · simp [Squad.toDoc, Doc.set, Doc.get]

/-- C2: create followed by list filtered on the identifying field, against a
store previously holding no record with that `user_id`, returns exactly one
record — the submitted payload's fields followed by the string-normalized
`id` — shown for the claim's task instance and for check-ins. -/
theorem create_list_roundtrip (db dbc : DB) (task : Task) (checkin : Checkin)
    (h : ∀ d ∈ DB.getColl db "task", Doc.get d "user_id" ≠ some (.vStr task.user_id))
    (hc : ∀ d ∈ DB.getColl dbc "checkin",
      Doc.get d "user_id" ≠ some (.vStr checkin.user_id)) :
    list_tasks (submit_task db task).1 task.user_id none
      = [Task.toDoc task ++ [("id", .vStr (oidStr db.nextId))]]
    ∧ list_checkins (create_checkin dbc checkin).1 checkin.user_id checkinsDefaultLimit
      = [Checkin.toDoc checkin ++ [("id", .vStr (oidStr dbc.nextId))]] := by
  constructor
  · have hold : (DB.getColl db "task").filter
        (matchesFilt [("user_id", .eq (.vStr task.user_id))]) = [] := by
      rw [List.filter_eq_nil_iff]
      intro d hd
      simp [matchesFilt, matchesCriterion]
      exact h d hd
    simp only [list_tasks, submit_task, optFilt, List.append_nil, get_documents]
    rw [getColl_create_self, List.filter_append, hold, List.nil_append]
    simp [matchesFilt, matchesCriterion, Task.toDoc, Doc.set, Doc.get, Doc.pop,
      normalizeId, truthy, pyStr, List.filter]
  · have hold : (DB.getColl dbc "checkin").filter
        (matchesFilt [("user_id", .eq (.vStr checkin.user_id))]) = [] := by
      rw [List.filter_eq_nil_iff]
      intro d hd
      simp [matchesFilt, matchesCriterion]
      exact hc d hd
    simp only [list_checkins, create_checkin, get_documents]
    rw [getColl_create_self, List.filter_append, hold, List.nil_append]
    simp [matchesFilt, matchesCriterion, Checkin.toDoc, Doc.set, Doc.get, Doc.pop,
      normalizeId, truthy, pyStr, List.filter, checkinsDefaultLimit]

/-- Witness for C2 at concrete inputs: the empty store, a concrete task and
a concrete check-in. -/
theorem create_list_roundtrip_witness :
    list_tasks (submit_task DB.empty ⟨"u1", "w1", "run", none, true⟩).1 "u1" none
      = [Task.toDoc ⟨"u1", "w1", "run", none, true⟩ ++ [("id", .vStr (oidStr 0))]]
    ∧ list_checkins (create_checkin DB.empty ⟨"u2", "ok", none, "d1"⟩).1 "u2"
        checkinsDefaultLimit
      = [Checkin.toDoc ⟨"u2", "ok", none, "d1"⟩ ++ [("id", .vStr (oidStr 0))]] :=
  create_list_roundtrip DB.empty DB.empty ⟨"u1", "w1", "run", none, true⟩
    ⟨"u2", "ok", none, "d1"⟩ (by simp [DB.empty, DB.getColl])
    (by simp [DB.empty, DB.getColl])

/-- A store holding 31 check-ins of user `"u1"` — more than the declared
default limit of `GET /checkins`. -/
def manyCheckinsDb : DB :=
  (List.range 31).foldl
    (fun db i => (create_checkin db ⟨"u1", "ok", none, toString i⟩).1) DB.empty

/-- C1 counterexample: on `manyCheckinsDb`, `GET /checkins?user_id=u1` with
the `limit` parameter omitted (so the declared default 30 applies) returns 30
records although 31 stored check-ins match the filter — omitting `limit` does
not return all matches. -/
theorem checkins_omitted_limit_counterexample :
    (list_checkins manyCheckinsDb "u1" checkinsDefaultLimit).length = 30
    ∧ (get_documents manyCheckinsDb "checkin"
        [("user_id", Criterion.eq (.vStr "u1"))] none).length = 31
    ∧ list_checkins manyCheckinsDb "u1" checkinsDefaultLimit
        ≠ (get_documents manyCheckinsDb "checkin"
            [("user_id", Criterion.eq (.vStr "u1"))] none).map normalizeId := by
  refine ⟨by decide, by decide, ?_⟩
  intro heq
  have hlen := congrArg List.length heq
  revert hlen
  decide

/-- C1 amended: a call with `limit = N` returns at most `N` records; a call
that omits `limit` runs with the declared default (30 for `GET /checkins`,
50 for `GET /posts`) and hence returns `min default matches` records — all
matching records only when no more than the default number match. -/
theorem list_limit_bound (db : DB) (uid : String) (n : Nat) (sq u : Option String) :
    (list_checkins db uid n).length ≤ n
    ∧ (list_posts db sq u n).length ≤ n
    ∧ (list_checkins db uid checkinsDefaultLimit).length
        = min checkinsDefaultLimit
            ((DB.getColl db "checkin").filter
              (matchesFilt [("user_id", Criterion.eq (.vStr uid))])).length
    ∧ (list_posts db sq u postsDefaultLimit).length
        = min postsDefaultLimit
            ((DB.getColl db "post").filter
              (matchesFilt (optFilt "squad_id" sq ++ optFilt "user_id" u))).length := by
  refine ⟨?_, ?_, ?_, ?_⟩
  · simp [list_checkins, get_documents, List.length_take]
  · simp [list_posts, get_documents, List.length_take]
  · simp [list_checkins, get_documents, List.length_take, checkinsDefaultLimit]
  · simp [list_posts, get_documents, List.length_take, postsDefaultLimit]

/-- C4: a signup whose email already matches a stored user fails with the
409-family client error the code raises (HTTP 400, "Email already
registered") and leaves the store exactly as it was — no second user record
is written. -/
theorem signup_duplicate_email_conflict (pyHash : String → Int) (db : DB) (p : SignupRequest)
    (h : ∃ u ∈ DB.getColl db "user", Doc.get u "email" = some (.vStr p.email)) :
    signup pyHash (some db) p = (some db, .error (.http 400 "Email already registered")) := by
  obtain ⟨u, hu, he⟩ := h
  obtain ⟨w, hw⟩ := find_one_isSome_of_mem db "user" [("email", .eq (.vStr p.email))] u hu
    (by simp [matchesFilt, matchesCriterion, he])
  simp [signup, hw]

/-- A store holding one user `a@x` with stored credential `sha1::7`. -/
def userDb : DB :=
  DB.setColl { DB.empty with nextId := 1 } "user"
    [Doc.set (userDoc "A" "a@x" "sha1::7") "_id" (.vId 0)]

/-- Witness for C4 at a concrete input. -/
theorem signup_duplicate_email_conflict_witness :
    signup (fun _ => 0) (some userDb) ⟨"B", "a@x", "zz"⟩
      = (some userDb, .error (.http 400 "Email already registered")) :=
  signup_duplicate_email_conflict (fun _ => 0) userDb ⟨"B", "a@x", "zz"⟩ (by decide)

/-- C5: login with an email no stored user has fails 404 ("User not found");
login against an existing user whose stored credential differs from the
derived one fails 401 ("Invalid credentials"); in both cases the store after
the request is exactly the store before it (the session-token write happens
only on success). -/
theorem login_failure_cases (pyHash : String → Int) (db : DB) (p : LoginRequest) :
    ((∀ u ∈ DB.getColl db "user", Doc.get u "email" ≠ some (.vStr p.email)) →
      login pyHash (some db) p = (some db, .error (.http 404 "User not found")))
    ∧ (∀ u, find_one db "user" [("email", Criterion.eq (.vStr p.email))] = some u →
        Doc.get u "password_hash" ≠ some (.vStr (credential pyHash p.password)) →
        login pyHash (some db) p = (some db, .error (.http 401 "Invalid credentials"))) := by
  constructor
  · intro h
    have hf : find_one db "user" [("email", Criterion.eq (.vStr p.email))] = none := by
      rw [find_one_eq_none_iff]
      intro d hd
      simp [matchesFilt, matchesCriterion]
      exact h d hd
    simp [login, hf]
  · intro u hu hne
    have hb : (Doc.get u "password_hash"
        != some (.vStr (credential pyHash p.password))) = true := by
      simpa using hne
    simp [login, hu, hb]

/-- Witness for C5 at concrete inputs: unknown email, then wrong password. -/
theorem login_failure_cases_witness :
    login (fun _ => 0) (some userDb) ⟨"b@x", "pw"⟩
        = (some userDb, .error (.http 404 "User not found"))
    ∧ login (fun _ => 0) (some userDb) ⟨"a@x", "pw"⟩
        = (some userDb, .error (.http 401 "Invalid credentials")) :=
  ⟨(login_failure_cases (fun _ => 0) userDb ⟨"b@x", "pw"⟩).1 (by decide),
   (login_failure_cases (fun _ => 0) userDb ⟨"a@x", "pw"⟩).2
     (Doc.set (userDoc "A" "a@x" "sha1::7") "_id" (.vId 0)) (by decide) (by decide)⟩

/-- C8: a feedback payload whose rating is present and outside 1–5 is
rejected by the shape validation (a 422 client error) and the store is left
untouched — the write never happens. -/
theorem feedback_rating_range_rejected (db : DB) (f : FeedbackPayload) (r : Int)
    (hr : f.rating = some r) (hout : r < 1 ∨ 5 < r) :
    submit_feedback db f = (db, .error (.http 422 "validation error: rating")) := by
  have hv : validFeedback f = false := by
    simp [validFeedback, hr]
    omega
  simp [submit_feedback, hv]

/-- Witness for C8 at a concrete input: rating 6. -/
theorem feedback_rating_range_rejected_witness :
    submit_feedback DB.empty ⟨none, "hi", some 6⟩
      = (DB.empty, .error (.http 422 "validation error: rating")) :=
  feedback_rating_range_rejected DB.empty ⟨none, "hi", some 6⟩ 6 rfl (Or.inr (by norm_num))

/-- C10: with no store configured, login dereferences the absent handle and
dies with an unhandled `TypeError`, while signup under the same condition
signals its deliberate 500 "Database unavailable" server error; the two
outcomes are distinct for every status and detail. -/
theorem login_missing_store_unhandled (pyHash : String → Int)
    (pl : LoginRequest) (ps : SignupRequest) :
    login pyHash none pl
        = (none, .error (.pyError "TypeError: NoneType object is not subscriptable"))
    ∧ signup pyHash none ps = (none, .error (.http 500 "Database unavailable"))
    ∧ ∀ st d, Err.pyError "TypeError: NoneType object is not subscriptable" ≠ Err.http st d :=
  ⟨rfl, rfl, fun _ _ h => Err.noConfusion h⟩

/-- A store holding one content item whose `description` is null and whose
title does not contain the search term used below. -/
def nullDescDb : DB :=
  (add_content DB.empty ⟨"Yoga Basics", none, "movement", [], "free", none, none⟩).1

/-- C9: the library search is not total — on a store containing an item with
a null description and a title not containing the term, `GET /library?q=zen`
dies lower-casing the missing description instead of returning a list. -/
theorem library_search_not_total :
    (∃ d ∈ DB.getColl nullDescDb "contentitem",
        Doc.get d "description" = some Value.vNull
        ∧ Doc.get d "title" = some (Value.vStr "Yoga Basics")
        ∧ strContains "yoga basics" "zen" = false)
    ∧ list_content nullDescDb none (some "zen") none
        = .error (.pyError "AttributeError: lower") :=
  ⟨by decide, by decide⟩

/-- The text of a stored field as the spec's search description reads it
(titles and descriptions are text; an absent field reads as empty). -/
def fieldText (i : Doc) (k : String) : String :=
  match Doc.getD i k (.vStr "") with
  | .vStr s => s
  | _ => ""

/-- Follows the spec's words for claim C7, to be compared with
`list_content`: exactly the stored content items that satisfy the category
and tier equality filters and whose title or description contains the term
as a case-insensitive substring, internal identifier stripped. -/
def specLibrarySearch (db : DB) (category : Option String) (qs : String)
    (tier : Option String) : List Doc :=
  let filt := optFilt "category" category ++ optFilt "tier" tier
  (((DB.getColl db "contentitem").filter (matchesFilt filt)).filter
      (fun i => strContains (strLower (fieldText i "title")) (strLower qs)
        || strContains (strLower (fieldText i "description")) (strLower qs))).map
    (fun i => Doc.pop i "_id")

/-- Another store with a null-description item (title "Pilates"). -/
def nullDescDb2 : DB :=
  (add_content DB.empty ⟨"Pilates", none, "movement", [], "free", none, none⟩).1

/-- C7 counterexample: with a stored item whose description is null and whose
title does not contain the term, `GET /library?q=run` does not return the
list the claim describes (the empty list here) — it raises instead. -/
theorem library_search_exact_counterexample :
    specLibrarySearch nullDescDb2 none "run" none = []
    ∧ list_content nullDescDb2 none (some "run") none
        ≠ .ok (specLibrarySearch nullDescDb2 none "run" none)
    ∧ list_content nullDescDb2 none (some "run") none
        = .error (.pyError "AttributeError: lower") :=
  ⟨by decide, by decide, by decide⟩

theorem pyLower_ok {v : Value} {s : String} (h : pyLower v = .ok s) :
    ∃ t, v = .vStr t ∧ s = strLower t := by
  cases v with
  | vStr t =>
    refine ⟨t, rfl, ?_⟩
    simpa [pyLower] using h.symm
  | vNull => simp [pyLower] at h
  | vBool b => simp [pyLower] at h
  | vInt n => simp [pyLower] at h
  | vId n => simp [pyLower] at h
  | vStrList l => simp [pyLower] at h
  | vEmptyMap => simp [pyLower] at h

theorem contentMatchesQ_ok (ql : String) (i : Doc) (b : Bool)
    (h : contentMatchesQ ql i = .ok b) :
    b = (strContains (strLower (fieldText i "title")) ql
      || strContains (strLower (fieldText i "description")) ql) := by
  unfold contentMatchesQ at h
  cases ht : pyLower (Doc.getD i "title" (.vStr "")) with
  | error e =>
    simp only [ht] at h
    exact Except.noConfusion h
  | ok tl =>
    simp only [ht] at h
    obtain ⟨t, htv, hteq⟩ := pyLower_ok ht
    have hft : fieldText i "title" = t := by simp [fieldText, htv]
    by_cases hm : strContains tl ql = true
    · rw [if_pos hm] at h
      simp only [Except.ok.injEq] at h
      rw [hft, ← hteq, hm, ← h]
      simp
    · rw [if_neg hm] at h
      cases hd : pyLower (Doc.getD i "description" (.vStr "")) with
      | error e =>
        simp only [hd] at h
        exact Except.noConfusion h
      | ok dl =>
        simp only [hd, Except.ok.injEq] at h
        obtain ⟨t2, hdv, hdeq⟩ := pyLower_ok hd
        have hfd : fieldText i "description" = t2 := by simp [fieldText, hdv]
        rw [hft, ← hteq, hfd, ← hdeq, ← h]
        simp [hm]

theorem filterExcept_ok (p : Doc → Except Err Bool) (q : Doc → Bool)
    (hpq : ∀ d b, p d = .ok b → b = q d) (l : List Doc) (out : List Doc)
    (h : filterExcept p l = .ok out) : out = l.filter q := by
  induction l generalizing out with
  | nil =>
    simp only [filterExcept, Except.ok.injEq] at h
    rw [← h]
    simp
  | cons x xs ih =>
    unfold filterExcept at h
    cases hp : p x with
    | error e =>
      simp only [hp] at h
      exact Except.noConfusion h
    | ok b =>
      simp only [hp] at h
      cases hr : filterExcept p xs with
      | error e =>
        simp only [hr] at h
        exact Except.noConfusion h
      | ok rest =>
        simp only [hr, Except.ok.injEq] at h
        rw [List.filter_cons, ← hpq x b hp, ← ih rest hr, ← h]

/-- The store after creating the scenario's content item on an empty store. -/
def breathingDb : DB :=
  (add_content DB.empty ⟨"Breathing 101", none, "mindfulness", [], "free", none, none⟩).1

/-- C7 amended: whenever `GET /library` with a (non-empty) search term
returns successfully, the returned list is exactly the stored content items
satisfying the category/tier filters whose title or description contains the
term case-insensitively, identifiers stripped (`specLibrarySearch`); the
claim's scenario holds: after creating `{title: "Breathing 101", category:
"mindfulness", tier: "free"}`, `/library?q=breathing` returns it and
`/library?category=art` does not. -/
theorem library_search_exact_on_success (db : DB) (category tier : Option String)
    (qs : String) (out : List Doc) (hq : qs ≠ "")
    (hok : list_content db category (some qs) tier = .ok out) :
    out = specLibrarySearch db category qs tier
    ∧ list_content breathingDb none (some "breathing") none
        = .ok [ContentItem.toDoc ⟨"Breathing 101", none, "mindfulness", [], "free", none, none⟩]
    ∧ list_content breathingDb (some "art") none none = .ok [] := by
  refine ⟨?_, by decide, by decide⟩
  have hq' : (qs != "") = true := by simpa using hq
  simp only [list_content, hq', if_true] at hok
  cases hf : filterExcept (contentMatchesQ (strLower qs))
      (get_documents db "contentitem"
        (optFilt "category" category ++ optFilt "tier" tier) none) with
  | error e =>
    simp only [hf] at hok
    exact Except.noConfusion hok
  | ok mid =>
    simp only [hf, Except.ok.injEq] at hok
    have hmid := filterExcept_ok (contentMatchesQ (strLower qs))
      (fun i => strContains (strLower (fieldText i "title")) (strLower qs)
        || strContains (strLower (fieldText i "description")) (strLower qs))
      (fun d b hb => contentMatchesQ_ok (strLower qs) d b hb) _ mid hf
    rw [← hok, hmid]
    simp [specLibrarySearch, get_documents]

/-- Witness for the amended C7 at a concrete input. -/
theorem library_search_exact_on_success_witness :
    ([ContentItem.toDoc ⟨"Breathing 101", none, "mindfulness", [], "free", none, none⟩]
        = specLibrarySearch breathingDb none "breathing" none)
    ∧ list_content breathingDb none (some "breathing") none
        = .ok [ContentItem.toDoc ⟨"Breathing 101", none, "mindfulness", [], "free", none, none⟩]
    ∧ list_content breathingDb (some "art") none none = .ok [] :=
  library_search_exact_on_success breathingDb none none "breathing"
    [ContentItem.toDoc ⟨"Breathing 101", none, "mindfulness", [], "free", none, none⟩]
    (by decide) (by decide)

/-- Is a value a store-native identifier? -/
def isId : Value → Bool
  | .vId _ => true
  | _ => false

/-- A well-formed stored document: carries a store-assigned `_id` and no
`id` key of its own — every document `create_document` builds from the API's
payload shapes is of this form. -/
def wfDoc (d : Doc) : Bool :=
  isId (Doc.getD d "_id" .vNull) && (Doc.get d "id" == none)

theorem wfDoc_id {d : Doc} (h : wfDoc d = true) :
    ∃ n, Doc.get d "_id" = some (.vId n) := by
  simp only [wfDoc, Bool.and_eq_true] at h
  obtain ⟨h1, _⟩ := h
  cases hg : Doc.get d "_id" with
  | none => rw [Doc.getD, hg] at h1; simp [isId] at h1
  | some v =>
    rw [Doc.getD, hg] at h1
    cases v with
    | vId n => exact ⟨n, rfl⟩
    | vNull => simp [isId] at h1
    | vBool b => simp [isId] at h1
    | vInt n => simp [isId] at h1
    | vStr s => simp [isId] at h1
    | vStrList l => simp [isId] at h1
    | vEmptyMap => simp [isId] at h1

theorem wfDoc_noid {d : Doc} (h : wfDoc d = true) : Doc.get d "id" = none := by
  simp only [wfDoc, Bool.and_eq_true, beq_iff_eq] at h
  exact h.2

theorem normalizeId_clean (d : Doc) (h : wfDoc d = true) :
    Doc.get (normalizeId d) "_id" = none
    ∧ ∃ s, Doc.get (normalizeId d) "id" = some (.vStr s) := by
  obtain ⟨n, hn⟩ := wfDoc_id h
  constructor
  · simp only [normalizeId, hn, truthy, if_true]
    rw [Doc.get_set_ne _ _ _ _ (by decide)]
    exact Doc.get_pop_self d "_id"
  · refine ⟨pyStr (.vId n), ?_⟩
    simp only [normalizeId, hn, truthy, if_true]
    exact Doc.get_set_self _ _ _

theorem mem_map_normalizeId_clean (l : List Doc) (hwf : ∀ e ∈ l, wfDoc e = true)
    (d : Doc) (hd : d ∈ l.map normalizeId) :
    Doc.get d "_id" = none ∧ ∃ s, Doc.get d "id" = some (.vStr s) := by
  obtain ⟨e, he, rfl⟩ := List.mem_map.mp hd
  exact normalizeId_clean e (hwf e he)

theorem filterExcept_subset (p : Doc → Except Err Bool) (l out : List Doc)
    (h : filterExcept p l = .ok out) : out ⊆ l := by
  induction l generalizing out with
  | nil =>
    simp only [filterExcept, Except.ok.injEq] at h
    rw [← h]
    exact fun y hy => hy
  | cons x xs ih =>
    unfold filterExcept at h
    cases hp : p x with
    | error e =>
      simp only [hp] at h
      exact Except.noConfusion h
    | ok b =>
      simp only [hp] at h
      cases hr : filterExcept p xs with
      | error e =>
        simp only [hr] at h
        exact Except.noConfusion h
      | ok rest =>
        simp only [hr, Except.ok.injEq] at h
        rw [← h]
        cases b with
        | true =>
          intro y hy
          cases List.mem_cons.mp hy with
          | inl h1 => exact h1 ▸ List.mem_cons_self x xs
          | inr h2 => exact List.mem_cons_of_mem x (ih rest hr h2)
        | false => exact fun y hy => List.mem_cons_of_mem x (ih rest hr hy)

theorem list_content_ok_shape (db : DB) (c q t : Option String) (out : List Doc)
    (h : list_content db c q t = .ok out) :
    ∀ d ∈ out, ∃ e ∈ DB.getColl db "contentitem", d = Doc.pop e "_id" := by
  unfold list_content at h
  cases q with
  | none =>
    simp only [Except.ok.injEq] at h
    intro d hd
    rw [← h] at hd
    obtain ⟨e, he, rfl⟩ := List.mem_map.mp hd
    exact ⟨e, get_documents_subset _ _ _ _ he, rfl⟩
  | some qs =>
    by_cases hq : (qs != "") = true
    · simp only [hq, if_true] at h
      cases hf : filterExcept (contentMatchesQ (strLower qs))
          (get_documents db "contentitem"
            (optFilt "category" c ++ optFilt "tier" t) none) with
      | error e =>
        simp only [hf] at h
        exact Except.noConfusion h
      | ok mid =>
        simp only [hf, Except.ok.injEq] at h
        intro d hd
        rw [← h] at hd
        obtain ⟨e, he, rfl⟩ := List.mem_map.mp hd
        exact ⟨e, get_documents_subset _ _ _ _ (filterExcept_subset _ _ _ hf he), rfl⟩
    · have hq' : (qs != "") = false := by simpa using hq
      simp only [hq', Bool.false_eq_true, if_false, Except.ok.injEq] at h
      intro d hd
      rw [← h] at hd
      obtain ⟨e, he, rfl⟩ := List.mem_map.mp hd
      exact ⟨e, get_documents_subset _ _ _ _ he, rfl⟩

/-- C6: no read/list endpoint ever returns a record still carrying the
store's internal `_id`: the library and program listings drop the identifier
entirely, and the task/checkin/squad/post/enrollment listings and the login
user object carry a string-normalized `id` in its place (over stores whose
documents are well formed, as `create_document` builds them). -/
theorem responses_never_leak_internal_id (db : DB) :
    (∀ c q t out, (∀ e ∈ DB.getColl db "contentitem", wfDoc e = true) →
      list_content db c q t = .ok out →
      ∀ d ∈ out, Doc.get d "_id" = none ∧ Doc.get d "id" = none)
    ∧ (∀ tier, (∀ e ∈ DB.getColl db "program", wfDoc e = true) →
      ∀ d ∈ list_programs db tier, Doc.get d "_id" = none ∧ Doc.get d "id" = none)
    ∧ (∀ uid w, (∀ e ∈ DB.getColl db "task", wfDoc e = true) →
      ∀ d ∈ list_tasks db uid w,
        Doc.get d "_id" = none ∧ ∃ s, Doc.get d "id" = some (.vStr s))
    ∧ (∀ uid n, (∀ e ∈ DB.getColl db "checkin", wfDoc e = true) →
      ∀ d ∈ list_checkins db uid n,
        Doc.get d "_id" = none ∧ ∃ s, Doc.get d "id" = some (.vStr s))
    ∧ (∀ m, (∀ e ∈ DB.getColl db "squad", wfDoc e = true) →
      ∀ d ∈ list_squads db m,
        Doc.get d "_id" = none ∧ ∃ s, Doc.get d "id" = some (.vStr s))
    ∧ (∀ sq u n, (∀ e ∈ DB.getColl db "post", wfDoc e = true) →
      ∀ d ∈ list_posts db sq u n,
        Doc.get d "_id" = none ∧ ∃ s, Doc.get d "id" = some (.vStr s))
    ∧ (∀ uid, (∀ e ∈ DB.getColl db "enrollment", wfDoc e = true) →
      ∀ d ∈ list_enrollments db uid,
        Doc.get d "_id" = none ∧ ∃ s, Doc.get d "id" = some (.vStr s))
    ∧ (∀ pyHash p db2 tok u, login pyHash (some db) p = (db2, .ok (tok, u)) →
        Doc.get u "_id" = none ∧ ∃ s, Doc.get u "id" = some (.vStr s)) := by
  refine ⟨?_, ?_, ?_, ?_, ?_, ?_, ?_, ?_⟩
  · intro c q t out hwf hok d hd
    obtain ⟨e, he, rfl⟩ := list_content_ok_shape db c q t out hok d hd
    refine ⟨Doc.get_pop_self e "_id", ?_⟩
    rw [Doc.get_pop_ne _ _ _ (by decide)]
    exact wfDoc_noid (hwf e he)
  · intro tier hwf d hd
    unfold list_programs at hd
    obtain ⟨e, he, rfl⟩ := List.mem_map.mp hd
    refine ⟨Doc.get_pop_self e "_id", ?_⟩
    rw [Doc.get_pop_ne _ _ _ (by decide)]
    exact wfDoc_noid (hwf e (get_documents_subset _ _ _ _ he))
  · intro uid w hwf d hd
    unfold list_tasks at hd
    exact mem_map_normalizeId_clean _
      (fun e he => hwf e (get_documents_subset _ _ _ _ he)) d hd
  · intro uid n hwf d hd
    unfold list_checkins at hd
    exact mem_map_normalizeId_clean _
      (fun e he => hwf e (get_documents_subset _ _ _ _ he)) d hd
  · intro m hwf d hd
    unfold list_squads at hd
    exact mem_map_normalizeId_clean _
      (fun e he => hwf e (get_documents_subset _ _ _ _ he)) d hd
  · intro sq u n hwf d hd
    unfold list_posts at hd
    exact mem_map_normalizeId_clean _
      (fun e he => hwf e (get_documents_subset _ _ _ _ he)) d hd
  · intro uid hwf d hd
    unfold list_enrollments at hd
    exact mem_map_normalizeId_clean _
      (fun e he => hwf e (get_documents_subset _ _ _ _ he)) d hd
  · intro pyHash p db2 tok u hlog
    unfold login at hlog
    cases hf : find_one db "user" [("email", Criterion.eq (.vStr p.email))] with
    | none =>
      simp only [hf] at hlog
      exact absurd (congrArg Prod.snd hlog) (by simp)
    | some ud =>
      simp only [hf] at hlog
      by_cases hpw : (Doc.get ud "password_hash"
          != some (.vStr (credential pyHash p.password))) = true
      · simp only [hpw, if_true] at hlog
        exact absurd (congrArg Prod.snd hlog) (by simp)
      · have hpw' : (Doc.get ud "password_hash"
            != some (.vStr (credential pyHash p.password))) = false := by
          simpa using hpw
        simp only [hpw', Bool.false_eq_true, if_false] at hlog
        cases hid : Doc.get ud "_id" with
        | none =>
          simp only [hid] at hlog
          exact absurd (congrArg Prod.snd hlog) (by simp)
        | some uid =>
          simp only [hid] at hlog
          have h2 := congrArg Prod.snd hlog
          simp only [Except.ok.injEq, Prod.mk.injEq] at h2
          obtain ⟨-, hu⟩ := h2
          rw [← hu]
          refine ⟨by simp [Doc.get], ⟨pyStr uid, by simp [Doc.get]⟩⟩

def sItem : ContentItem := ⟨"Breathing 101", some "calm the mind", "mindfulness", [], "free", none, none⟩

def sProgram : Program := ⟨"Starter", none, 4, "free"⟩

def sTask : Task := ⟨"u1", "w1", "walk", none, true⟩

def sCheckin : Checkin := ⟨"u1", "ok", none, "2024-01-01"⟩

def sSquad : Squad := ⟨"Crew", none, "u1", []⟩

def sPost : Post := ⟨"u1", none, "hello", "2024-01-02"⟩

def sEnroll : Enrollment := ⟨"u1", "p1", 0⟩

/-- A store populated through the API with one record per collection
(identifiers 0–7 in creation order, the user last). -/
def sampleDb : DB :=
  let d0 := (add_content DB.empty sItem).1
  let d1 := (create_program d0 sProgram).1
  let d2 := (submit_task d1 sTask).1
  let d3 := (create_checkin d2 sCheckin).1
  let d4 := (create_squad d3 sSquad).1
  let d5 := (create_post d4 sPost).1
  let d6 := (enroll_user d5 sEnroll).1
  ((signup (fun _ => 0) (some d6) ⟨"A", "a@x", "pw"⟩).1).getD DB.empty

/-- The user object the login response carries for `sampleDb`. -/
def sLoginUser : Doc :=
  [("id", Value.vStr "oid7"), ("name", Value.vStr "A"),
   ("email", Value.vStr "a@x"), ("plan", Value.vStr "free")]

/-- Witness for C6: every hypothesis discharged on `sampleDb`, one returned
record per endpoint. -/
theorem responses_never_leak_internal_id_witness :
    (Doc.get sItem.toDoc "_id" = none ∧ Doc.get sItem.toDoc "id" = none)
    ∧ (Doc.get sProgram.toDoc "_id" = none ∧ Doc.get sProgram.toDoc "id" = none)
    ∧ (Doc.get (Task.toDoc sTask ++ [("id", Value.vStr "oid2")]) "_id" = none
        ∧ ∃ s, Doc.get (Task.toDoc sTask ++ [("id", Value.vStr "oid2")]) "id"
            = some (.vStr s))
    ∧ (Doc.get (Checkin.toDoc sCheckin ++ [("id", Value.vStr "oid3")]) "_id" = none
        ∧ ∃ s, Doc.get (Checkin.toDoc sCheckin ++ [("id", Value.vStr "oid3")]) "id"
            = some (.vStr s))
    ∧ (Doc.get (Squad.toDoc ⟨"Crew", none, "u1", ["u1"]⟩ ++ [("id", Value.vStr "oid4")])
          "_id" = none
        ∧ ∃ s, Doc.get (Squad.toDoc ⟨"Crew", none, "u1", ["u1"]⟩
            ++ [("id", Value.vStr "oid4")]) "id" = some (.vStr s))
    ∧ (Doc.get (Post.toDoc sPost ++ [("id", Value.vStr "oid5")]) "_id" = none
        ∧ ∃ s, Doc.get (Post.toDoc sPost ++ [("id", Value.vStr "oid5")]) "id"
            = some (.vStr s))
    ∧ (Doc.get (Enrollment.toDoc sEnroll ++ [("id", Value.vStr "oid6")]) "_id" = none
        ∧ ∃ s, Doc.get (Enrollment.toDoc sEnroll ++ [("id", Value.vStr "oid6")]) "id"
            = some (.vStr s))
    ∧ (Doc.get sLoginUser "_id" = none
        ∧ ∃ s, Doc.get sLoginUser "id" = some (.vStr s)) := by
  have H := responses_never_leak_internal_id sampleDb
  refine ⟨?_, ?_, ?_, ?_, ?_, ?_, ?_, ?_⟩
  · exact H.1 none none none [sItem.toDoc] (by decide) (by decide) sItem.toDoc (by decide)
  · exact H.2.1 none (by decide) sProgram.toDoc (by decide)
  · exact H.2.2.1 "u1" none (by decide)
      (Task.toDoc sTask ++ [("id", Value.vStr "oid2")]) (by decide)
  · exact H.2.2.2.1 "u1" 30 (by decide)
      (Checkin.toDoc sCheckin ++ [("id", Value.vStr "oid3")]) (by decide)
  · exact H.2.2.2.2.1 (some "u1") (by decide)
      (Squad.toDoc ⟨"Crew", none, "u1", ["u1"]⟩ ++ [("id", Value.vStr "oid4")]) (by decide)
  · exact H.2.2.2.2.2.1 none (some "u1") 50 (by decide)
      (Post.toDoc sPost ++ [("id", Value.vStr "oid5")]) (by decide)
  · exact H.2.2.2.2.2.2.1 "u1" (by decide)
      (Enrollment.toDoc sEnroll ++ [("id", Value.vStr "oid6")]) (by decide)
  · exact H.2.2.2.2.2.2.2 (fun _ => 0) ⟨"a@x", "pw"⟩
      (login (fun _ => 0) (some sampleDb) ⟨"a@x", "pw"⟩).1 "tok_0" sLoginUser rfl

end LifeMoves
